import Mathlib

/-!
Shallow embedding of the HiveBox readiness/caching core
(`src/app/services.py`, `src/app/health.py`, `src/app/storage.py`).

Python exceptions are modelled by the inductive `PyExc`; fallible
operations return `Except PyExc _`.  External collaborators (the Redis
cache, the OpenSenseMap upstream, the MinIO client) enter as explicit
environment records holding the outcome of each call the code makes, so
every control path of the source is reproduced, including which
exception classes each `except` clause catches.
-/

namespace HiveBox

/-- Python exception classes that appear in the modelled modules.
`httpException` is FastAPI's `HTTPException(status_code, detail)`;
`requestException` is `requests.RequestException`; `redisError` is
`redis.RedisError`; `keyError` models `KeyError` from a missing dict
key; `s3Error` is `minio.error.S3Error`; `valueError` models
`ValueError`/`TypeError` from a failed conversion. -/
inductive PyExc where
  | httpException (statusCode : Nat) (detail : String)
  | requestException (msg : String)
  | redisError (msg : String)
  | keyError (msg : String)
  | s3Error (msg : String)
  | valueError (msg : String)
deriving DecidableEq, Repr

/-- `str(e)` of a modelled exception. -/
def PyExc.msg : PyExc → String
  | .httpException _ d => d
  | .requestException m => m
  | .redisError m => m
  | .keyError m => m
  | .s3Error m => m
  | .valueError m => m

/-! ## services.py : aggregation -/

/-- One sensor record of a sensebox.  `lastMeasurementValue` is the
outcome of the expression `float(sensor["lastMeasurement"]["value"])`:
`.ok q` when the nested fields are present and numeric;
`.error (.keyError ...)` when `"lastMeasurement"` or `"value"` is
missing (the subscript raises `KeyError`); `.error (.valueError ...)`
when the fields are present but `float()` raises
`ValueError`/`TypeError`.  The distinction matters: handlers that catch
`(ValueError, TypeError)` do not catch `KeyError`. -/
structure Sensor where
  title : String
  lastMeasurementValue : Except PyExc ℚ
deriving Repr

/-- One endpoint (sensebox) as seen by `calculate_average_temperature`:
`sensors = none` models a JSON object lacking the `"sensors"` field. -/
structure Box where
  sensors : Option (List Sensor)
deriving Repr

/-- `box.get("sensors", [])`. -/
def Box.sensorList (b : Box) : List Sensor := b.sensors.getD []

/-- One step of the accumulation loop of `calculate_average_temperature`:
on a sensor titled `"Temperatur"` the counter is incremented and
`float(sensor["lastMeasurement"]["value"])` is added to the running sum;
whatever exception that expression raises (`KeyError` for a missing
key, `ValueError`/`TypeError` for a non-numeric value) propagates
unchanged — `calculate_average_temperature` catches nothing.  Other
sensors are skipped. -/
def tempStep (acc : ℚ × ℕ) (s : Sensor) : Except PyExc (ℚ × ℕ) :=
  if s.title = "Temperatur" then
    match s.lastMeasurementValue with
    | .ok v => .ok (acc.1 + v, acc.2 + 1)
    | .error e => .error e
  else .ok acc

/-- Python `int(q)`: truncation toward zero. -/
def ratTrunc (q : ℚ) : ℤ := if q < 0 then ⌈q⌉ else ⌊q⌋

/-- `calculate_average_temperature(response)` from `src/app/services.py`:
scans every sensor of every box, filters on title `"Temperatur"`, sums
the numeric values and counts them; raises
`HTTPException(404, "No temperature data found")` when the count is
zero, otherwise returns `int(measurement / counter)`. -/
def calculate_average_temperature (response : List Box) : Except PyExc ℤ :=
  match (response.flatMap Box.sensorList).foldlM tempStep (0, 0) with
  | .error e => .error e
  | .ok (measurement, counter) =>
    if counter = 0 then .error (.httpException 404 "No temperature data found")
    else .ok (ratTrunc (measurement / (counter : ℚ)))

/-- The classification `match` of `get_temperature`
(`src/app/services.py`): guards are tried in order; `none` is the
unreachable fallthrough case that would raise
`HTTPException(404, "No Temp data found")`. -/
def classify (data : ℤ) : Option String :=
  if data < 10 then some "Too cold"
  else if 10 ≤ data ∧ data ≤ 36 then some "Good"
  else if 36 < data then some "Too hot"
  else none

/-- The sensor values that the aggregation loop accumulates: the
`lastMeasurementValue` of every sensor titled `"Temperatur"`, in scan
order.  Used only to state properties about
`calculate_average_temperature`. -/
def temperaturValues (response : List Box) : List (Except PyExc ℚ) :=
  (response.flatMap Box.sensorList).filterMap
    (fun s => if s.title = "Temperatur" then some s.lastMeasurementValue else none)

/-! ## services.py : availability sampling -/

/-- One endpoint as seen by `count_available_senseboxes`.  `boxId` is
the `"_id"` field: `none` models a record lacking it, in which case
`sensebox["_id"]` raises `KeyError("_id")`. -/
structure Sensebox where
  boxId : Option String
deriving DecidableEq, Repr

/-- One step of the probing loop of `count_available_senseboxes`: read
`sensebox["_id"]` (raising `KeyError` when absent), issue the
reachability probe, increment the inaccessible count on a non-200
status; the inner `except requests.RequestException` absorbs a probe
network error into the count, while any other exception propagates. -/
def probeStep (probe : String → Except PyExc ℕ) (inacc : ℕ) (sb : Sensebox) :
    Except PyExc ℕ :=
  match sb.boxId with
  | none => .error (.keyError "_id")
  | some i =>
    match probe i with
    | .ok code => if code ≠ 200 then .ok (inacc + 1) else .ok inacc
    | .error (.requestException _) => .ok (inacc + 1)
    | .error e => .error e

/-- `count_available_senseboxes()` from `src/app/services.py`,
parametrised by the outcome of the initial `fetch_temperature_from_api()`
call and by the per-endpoint reachability probe of `/boxes/{id}/sensors`.
The outer `except requests.RequestException: raise` re-raises the fetch
failure unchanged; any exception escaping the loop propagates as well. -/
def count_available_senseboxes (fetched : Except PyExc (List Sensebox))
    (probe : String → Except PyExc ℕ) : Except PyExc (ℕ × ℕ) :=
  match fetched with
  | .error e => .error e
  | .ok senseboxes =>
    match senseboxes.foldlM (probeStep probe) 0 with
    | .error e => .error e
    | .ok inaccessible => .ok (senseboxes.length, inaccessible)

/-! ## health.py : readiness_check -/

/-- A readiness verdict body `{"status": ..., "message": ...}`. -/
structure Verdict where
  status : String
  message : String
deriving DecidableEq, Repr

/-- A readiness response: verdict body paired with the HTTP status. -/
abbrev VResp := Verdict × ℕ

def readyResp : VResp := (⟨"ready", "Application is ready"⟩, 200)

def noBoxesResp : VResp := (⟨"error", "No senseBoxes found"⟩, 503)

def unavailResp : VResp :=
  (⟨"unavailable", "More than 50% of senseBoxes are inaccessible."⟩, 503)

/-- The verdict produced by the `except` clause of `readiness_check`. -/
def excResp (e : PyExc) : VResp := (⟨"error", e.msg⟩, 503)

/-- Outcomes of the external calls `readiness_check` makes:
`redisGet` is `redis_client.get('temperature')` (decoded; every value
the system stores is a nonempty integer byte string, so presence is
`isSome`), `redisTtl` is `redis_client.ttl('temperature')` (redis-py
returns an integer, `-2`/`-1` for missing/persistent keys), and
`sample` is `count_available_senseboxes()`. -/
structure HealthEnv where
  redisGet : Except PyExc (Option ℤ)
  redisTtl : Except PyExc ℤ
  sample : Except PyExc (ℕ × ℕ)

/-- The `try` body of `readiness_check` (`src/app/health.py`), before
exception handling.  The second component records whether
`count_available_senseboxes` was invoked on that path. -/
def readiness_body (env : HealthEnv) : Except PyExc VResp × Bool :=
  match env.redisGet with
  | .error e => (.error e, false)
  | .ok cached =>
    let fresh : Except PyExc Bool :=
      match cached with
      | some _ => env.redisTtl.map (fun t => decide (0 < t ∧ t < 300))
      | none => .ok false
    match fresh with
    | .error e => (.error e, false)
    | .ok true => (.ok readyResp, false)
    | .ok false =>
      match env.sample with
      | .error e => (.error e, true)
      | .ok (total, inaccessible) =>
        if total = 0 then (.ok noBoxesResp, true)
        else if (50 : ℚ) ≤ (inaccessible : ℚ) / (total : ℚ) * 100 then
          (.ok unavailResp, true)
        else (.ok readyResp, true)

/-- The exception classes named by the `except` clause of
`readiness_check`: `(requests.RequestException, redis.RedisError)`. -/
def caughtByReadiness : PyExc → Bool
  | .requestException _ => true
  | .redisError _ => true
  | _ => false

/-- `readiness_check()` from `src/app/health.py`: the `try` body with
its `except (requests.RequestException, redis.RedisError)` handler,
which converts a caught exception into an error verdict with the
exception's message and HTTP 503.  Exceptions of any other class
propagate (`.error`).  The `Bool` records whether the availability
sampler was invoked. -/
def readiness_check (env : HealthEnv) : Except PyExc VResp × Bool :=
  match readiness_body env with
  | (.error e, b) =>
    if caughtByReadiness e then (.ok (excResp e), b) else (.error e, b)
  | r => r

/-! ## storage.py : MinIO persistence and the snapshot loop -/

/-- Outcomes of the MinIO client calls one `store_temperature_in_minio`
invocation makes: `bucket_exists`, `make_bucket` and `put_object`.  The
real client raises `S3Error` on failure. -/
structure MinioEnv where
  bucket_exists : Except PyExc Bool
  make_bucket : Except PyExc Unit
  put_object : Except PyExc Unit

/-- `store_temperature_in_minio(temp)` from `src/app/storage.py`:
ensure the bucket exists — an `S3Error` from `make_bucket` is converted
to `HTTPException(500, "Failed to create MinIO bucket")` and raised —
then write the object; an `S3Error` from `put_object` is logged and
swallowed.  The stored temperature does not influence the control flow,
so it is not a parameter here. -/
def store_temperature_in_minio (env : MinioEnv) : Except PyExc Unit :=
  match env.bucket_exists with
  | .error e => .error e
  | .ok bucketPresent =>
    let ensured : Except PyExc Unit :=
      if bucketPresent then .ok ()
      else
        match env.make_bucket with
        | .ok _ => .ok ()
        | .error (.s3Error _) =>
          .error (.httpException 500 "Failed to create MinIO bucket")
        | .error e => .error e
    match ensured with
    | .error e => .error e
    | .ok _ =>
      match env.put_object with
      | .ok _ => .ok ()
      | .error (.s3Error _) => .ok ()
      | .error e => .error e

/-- The cache state: the value stored under the single key
`"temperature"` (always an integer when present, since every writer
stores one). -/
structure RedisState where
  temperature : Option ℤ
deriving DecidableEq, Repr

/-- Outcomes of the external calls one iteration of
`store_temperature_periodically` makes: when `redisFailure` is `some m`
the `redis_client.get('temperature')` call raises `RedisError(m)`,
otherwise it returns the cache state's value; `fetched` is the outcome
of `fetch_temperature_from_api()`; `minio` the MinIO call outcomes. -/
structure LoopEnv where
  redisFailure : Option String
  fetched : Except PyExc (List Box)
  minio : MinioEnv

/-- One iteration of the `while True` body of
`store_temperature_periodically` (`src/app/storage.py`), without the
sleep.  On a cache hit the value is stored in MinIO; on a miss the
aggregate is recomputed and stored, with `HTTPException` and
`(ValueError, TypeError)` caught around that inner block; the outer
`except (requests.RequestException, redis.RedisError, S3Error)` catches
those classes at the iteration boundary.  Returns the iteration outcome
(`.error` = an exception escapes the iteration and kills the task) and
the cache state after the iteration. -/
def loop_iteration (env : LoopEnv) (st : RedisState) :
    Except PyExc Unit × RedisState :=
  let body : Except PyExc Unit :=
    match env.redisFailure with
    | some m => .error (.redisError m)
    | none =>
      match st.temperature with
      | some _ => store_temperature_in_minio env.minio
      | none =>
        let inner : Except PyExc Unit :=
          match env.fetched with
          | .error e => .error e
          | .ok boxes =>
            match calculate_average_temperature boxes with
            | .error e => .error e
            | .ok _ => store_temperature_in_minio env.minio
        match inner with
        | .error (.httpException _ _) => .ok ()
        | .error (.valueError _) => .ok ()
        | r => r
  let outcome : Except PyExc Unit :=
    match body with
    | .error (.requestException _) => .ok ()
    | .error (.redisError _) => .ok ()
    | .error (.s3Error _) => .ok ()
    | r => r
  (outcome, st)

/-- Runs `store_temperature_periodically` for finitely many iterations,
one `LoopEnv` per iteration, threading the cache state.  An iteration
whose outcome is `.error` models an exception propagating out of the
`while True` loop, terminating the background task; the result then
reports that exception and how many iterations completed before it. -/
def loop_run (envs : List LoopEnv) (st : RedisState) :
    Except (PyExc × ℕ) RedisState :=
  match envs with
  | [] => .ok st
  | e :: rest =>
    match loop_iteration e st with
    | (.ok _, st2) =>
      match loop_run rest st2 with
      | .ok stf => .ok stf
      | .error (ex, n) => .error (ex, n + 1)
    | (.error ex, _) => .error (ex, 0)

/-! ## services.py : the temperature read path -/

/-- Outcomes of the external calls `get_temperature` makes on a cache
miss (`fetch_temperature_from_api`), plus whether the
`redis_client.get` call itself raises. -/
structure ServiceEnv where
  redisFailure : Option String
  fetched : Except PyExc (List Box)

/-- The tail of `get_temperature`: classify `data` and build the
response dict, raising `HTTPException(404, "No Temp data found")` on
the (unreachable) fallthrough arm. -/
def classifyResp (data : ℤ) : Except PyExc (ℤ × String) :=
  match classify data with
  | some s => .ok (data, s)
  | none => .error (.httpException 404 "No Temp data found")

/-- `get_temperature()` from `src/app/services.py`: on a cache hit the
cached integer is classified; on a miss the aggregate is recomputed,
written back into the cache with the fixed expiration, and classified.
Returns the response (or propagated exception) and the cache state
after the call. -/
def get_temperature (env : ServiceEnv) (st : RedisState) :
    Except PyExc (ℤ × String) × RedisState :=
  match env.redisFailure with
  | some m => (.error (.redisError m), st)
  | none =>
    match st.temperature with
    | some v => (classifyResp v, st)
    | none =>
      match env.fetched with
      | .error e => (.error e, st)
      | .ok boxes =>
        match calculate_average_temperature boxes with
        | .error e => (.error e, st)
        | .ok data => (classifyResp data, { temperature := some data })

/-! ## Statement-side helper predicates -/

/-- Whether the probing loop counts `sb` as inaccessible: its probe
returned a non-200 status or raised. -/
def probeFails (probe : String → Except PyExc ℕ) (sb : Sensebox) : Bool :=
  match sb.boxId with
  | none => false
  | some i =>
    match probe i with
    | .ok code => code ≠ 200
    | .error _ => true

/-- The MinIO client only fails with `S3Error` (what the real `minio`
library raises from these calls). -/
def minioKindsOk (m : MinioEnv) : Prop :=
  (∀ e, m.bucket_exists = .error e → ∃ s, e = .s3Error s) ∧
  (∀ e, m.make_bucket = .error e → ∃ s, e = .s3Error s) ∧
  (∀ e, m.put_object = .error e → ∃ s, e = .s3Error s)

/-- Realistic failure kinds for one snapshot-loop iteration: the
upstream fetch only raises `requests.RequestException` and the MinIO
client only raises `S3Error`. -/
def envKindsOk (env : LoopEnv) : Prop :=
  (∀ e, env.fetched = .error e → ∃ s, e = .requestException s) ∧
  minioKindsOk env.minio

/-- The sensor-value failures the snapshot loop's miss path can absorb:
every `"Temperatur"` sensor of the fetched endpoints either carries a
numeric value or fails its `float()` conversion with
`ValueError`/`TypeError` (which `except (ValueError, TypeError)`
catches).  A record missing the `"lastMeasurement"`/`"value"` key
raises `KeyError` instead, which no handler of the loop catches. -/
def fetchedValuesOk (env : LoopEnv) : Prop :=
  ∀ boxes, env.fetched = .ok boxes →
    ∀ s ∈ boxes.flatMap Box.sensorList, s.title = "Temperatur" →
      (∃ q, s.lastMeasurementValue = .ok q) ∨
      (∃ m, s.lastMeasurementValue = .error (.valueError m))

/-- One of the two iteration states the snapshot loop does not survive:
a cache hit while the bucket is missing and its creation fails with
`S3Error` (the resulting `HTTPException(500)` is caught on the miss
path but not on the hit path).  The other fatal state — a cache miss
whose fetched data raises `KeyError` in the aggregation — is excluded
by `fetchedValuesOk`. -/
def safeIteration (env : LoopEnv) (st : RedisState) : Prop :=
  ¬(env.redisFailure = none ∧ st.temperature.isSome = true ∧
    env.minio.bucket_exists = .ok false ∧
    ∃ s, env.minio.make_bucket = .error (.s3Error s))

/-! ## Theorems -/

/-- C4: Classification is a total, exclusive partition of the integers:
for every integer, `classify` assigns exactly one status — `"Too cold"`
iff the value is below 10, `"Good"` iff it lies in `[10, 36]`,
`"Too hot"` iff it exceeds 36 — the fallthrough arm (`none`) is
unreachable, and the boundary values 9, 10, 36, 37 classify as stated. -/
theorem c4_classify_partition :
    (∀ v : ℤ,
      (classify v = some "Too cold" ↔ v < 10) ∧
      (classify v = some "Good" ↔ 10 ≤ v ∧ v ≤ 36) ∧
      (classify v = some "Too hot" ↔ 36 < v) ∧
      classify v ≠ none) ∧
    classify 9 = some "Too cold" ∧ classify 10 = some "Good" ∧
    classify 36 = some "Good" ∧ classify 37 = some "Too hot" := by
  refine ⟨fun v => ?_, by decide, by decide, by decide, by decide⟩
  unfold classify
  split_ifs with h1 h2 h3
  all_goals refine ⟨?_, ?_, ?_, ?_⟩ <;> simp_all
  all_goals omega

/-- C1: Readiness short-circuit: when the cache holds a value for
`"temperature"` and its remaining TTL lies strictly between 0 and 300,
`readiness_check` returns the ready verdict with HTTP 200 and the
availability sampler is not invoked; when the value is absent, or
present with a TTL outside the open interval `(0, 300)`, the sampler is
invoked. -/
theorem c1_short_circuit :
    (∀ (env : HealthEnv) (v t : ℤ),
      env.redisGet = .ok (some v) → env.redisTtl = .ok t →
      0 < t → t < 300 →
      readiness_check env = (.ok readyResp, false)) ∧
    (∀ env : HealthEnv,
      (env.redisGet = .ok none ∨
        ∃ v t, env.redisGet = .ok (some v) ∧ env.redisTtl = .ok t ∧
          ¬(0 < t ∧ t < 300)) →
      (readiness_check env).2 = true) := by
  constructor
  · intro env v t hget httl h0 h300
    obtain ⟨g, tl, sm⟩ := env
    dsimp only at hget httl
    subst hget; subst httl
    have hd : decide (0 < t ∧ t < 300) = true := by
      simp only [decide_eq_true_eq]; exact ⟨h0, h300⟩
    unfold readiness_check readiness_body
    dsimp only [Except.map]
    rw [hd]
  · intro env h
    obtain ⟨g, tl, sm⟩ := env
    dsimp only at h
    rcases h with hget | ⟨v, t, hget, httl, ht⟩
    · subst hget
      unfold readiness_check readiness_body
      dsimp only
      rcases sm with e | ⟨total, inacc⟩
      · cases hce : caughtByReadiness e <;> simp [hce]
      · dsimp only
        split_ifs <;> rfl
    · subst hget; subst httl
      have hd : decide (0 < t ∧ t < 300) = false := by
        simp only [decide_eq_false_iff_not]; exact ht
      unfold readiness_check readiness_body
      dsimp only [Except.map]
      rw [hd]
      rcases sm with e | ⟨total, inacc⟩
      · cases hce : caughtByReadiness e <;> simp [hce]
      · dsimp only
        split_ifs <;> rfl

/-- C1 witness: with a cached value and TTL 115, the verdict is ready
with HTTP 200 and the sampler was not invoked; with an absent value the
sampler is invoked. -/
theorem c1_short_circuit_witness :
    readiness_check ⟨.ok (some 20), .ok 115, .ok (10, 6)⟩
      = (.ok readyResp, false) ∧
    (readiness_check ⟨.ok none, .ok (-2), .ok (10, 0)⟩).2 = true :=
  ⟨c1_short_circuit.1 ⟨.ok (some 20), .ok 115, .ok (10, 6)⟩ 20 115 rfl rfl
      (by decide) (by decide),
    c1_short_circuit.2 ⟨.ok none, .ok (-2), .ok (10, 0)⟩ (Or.inl rfl)⟩

/-- Helper: when the cache gives no freshness short-circuit (value
absent, or present with TTL outside `(0, 300)`) and the sampler returns
a pair, `readiness_check` reduces to the verdict computation over that
pair, with the sampler invoked. -/
lemma readiness_check_miss_sample (g : Except PyExc (Option ℤ))
    (tl : Except PyExc ℤ) (total inacc : ℕ)
    (hmiss : g = .ok none ∨
      ∃ v t, g = .ok (some v) ∧ tl = .ok t ∧ ¬(0 < t ∧ t < 300)) :
    readiness_check ⟨g, tl, .ok (total, inacc)⟩ =
      ((if total = 0 then .ok noBoxesResp
        else if (50 : ℚ) ≤ (inacc : ℚ) / (total : ℚ) * 100 then .ok unavailResp
        else .ok readyResp), true) := by
  rcases hmiss with hget | ⟨v, t, hget, httl, ht⟩
  · subst hget
    unfold readiness_check readiness_body
    dsimp only
    split_ifs <;> rfl
  · subst hget; subst httl
    have hd : decide (0 < t ∧ t < 300) = false := by
      simp only [decide_eq_false_iff_not]; exact ht
    unfold readiness_check readiness_body
    dsimp only [Except.map]
    rw [hd]
    dsimp only
    split_ifs <;> rfl

/-- C2: when the fresh-cache short-circuit does not fire and the
sampler returns `(total, inaccessible)`, `readiness_check` returns the
"No senseBoxes found" error with 503 if `total = 0`; otherwise, with
`inaccessiblePct = inaccessible / total * 100`, the "more than 50%
inaccessible" verdict with 503 when the percentage is at least 50, and
the ready verdict with 200 when it is below 50. -/
theorem c2_readiness_verdict (env : HealthEnv)
    (hmiss : env.redisGet = .ok none ∨
      ∃ v t, env.redisGet = .ok (some v) ∧ env.redisTtl = .ok t ∧
        ¬(0 < t ∧ t < 300))
    (total inacc : ℕ) (hs : env.sample = .ok (total, inacc)) :
    (total = 0 → readiness_check env = (.ok noBoxesResp, true)) ∧
    (total ≠ 0 → (50 : ℚ) ≤ (inacc : ℚ) / (total : ℚ) * 100 →
      readiness_check env = (.ok unavailResp, true)) ∧
    (total ≠ 0 → (inacc : ℚ) / (total : ℚ) * 100 < 50 →
      readiness_check env = (.ok readyResp, true)) := by
  obtain ⟨g, tl, sm⟩ := env
  dsimp only at hmiss hs
  subst hs
  have h := readiness_check_miss_sample g tl total inacc hmiss
  refine ⟨fun h0 => ?_, fun h0 h50 => ?_, fun h0 h50 => ?_⟩
  · rw [h, if_pos h0]
  · rw [h, if_neg h0, if_pos h50]
  · rw [h, if_neg h0, if_neg (not_le.mpr h50)]

/-- C2 witness: `sample = (10, 6)` yields the unavailable verdict with
503, `(10, 0)` yields ready with 200, and `(0, 0)` yields the
"No senseBoxes found" error with 503. -/
theorem c2_readiness_verdict_witness :
    readiness_check ⟨.ok none, .ok 0, .ok (10, 6)⟩ = (.ok unavailResp, true) ∧
    readiness_check ⟨.ok none, .ok 0, .ok (10, 0)⟩ = (.ok readyResp, true) ∧
    readiness_check ⟨.ok none, .ok 0, .ok (0, 0)⟩ = (.ok noBoxesResp, true) :=
  ⟨(c2_readiness_verdict ⟨.ok none, .ok 0, .ok (10, 6)⟩ (Or.inl rfl) 10 6
      rfl).2.1 (by decide) (by norm_num),
    (c2_readiness_verdict ⟨.ok none, .ok 0, .ok (10, 0)⟩ (Or.inl rfl) 10 0
      rfl).2.2 (by decide) (by norm_num),
    (c2_readiness_verdict ⟨.ok none, .ok 0, .ok (0, 0)⟩ (Or.inl rfl) 0 0
      rfl).1 rfl⟩

/-- Helper: an exception produced by the `try` body of
`readiness_check` originates in one of the three external calls. -/
lemma readiness_body_error_src (g : Except PyExc (Option ℤ))
    (tl : Except PyExc ℤ) (sm : Except PyExc (ℕ × ℕ)) (e : PyExc) (b : Bool)
    (h : readiness_body ⟨g, tl, sm⟩ = (.error e, b)) :
    g = .error e ∨ tl = .error e ∨ sm = .error e := by
  unfold readiness_body at h
  cases g with
  | error e2 =>
    dsimp only at h
    simp only [Prod.mk.injEq, Except.error.injEq] at h
    exact Or.inl (by rw [h.1])
  | ok cached =>
    cases cached with
    | none =>
      dsimp only at h
      cases sm with
      | error e2 =>
        dsimp only at h
        simp only [Prod.mk.injEq, Except.error.injEq] at h
        exact Or.inr (Or.inr (by rw [h.1]))
      | ok p =>
        obtain ⟨total, inacc⟩ := p
        dsimp only at h
        exfalso
        split_ifs at h <;> simp_all
    | some v =>
      cases tl with
      | error e2 =>
        dsimp only [Except.map] at h
        simp only [Prod.mk.injEq, Except.error.injEq] at h
        exact Or.inr (Or.inl (by rw [h.1]))
      | ok t =>
        dsimp only [Except.map] at h
        cases hd : decide (0 < t ∧ t < 300)
        · rw [hd] at h
          dsimp only at h
          cases sm with
          | error e2 =>
            simp only [Prod.mk.injEq, Except.error.injEq] at h
            exact Or.inr (Or.inr (by rw [h.1]))
          | ok p =>
            obtain ⟨total, inacc⟩ := p
            dsimp only at h
            exfalso
            split_ifs at h <;> simp_all
        · rw [hd] at h
          exact absurd h (by simp)

/-- C3 counterexample: with an empty cache and an availability sampling
over an endpoint record lacking the `"_id"` field, the sampling raises
`KeyError("_id")`, which the `except (requests.RequestException,
redis.RedisError)` clause of `readiness_check` does not catch: the
exception propagates out of `readiness_check` instead of becoming an
error verdict.  This refutes the claim that every exception of any
kind — including malformed endpoint data — is caught. -/
theorem c3_counterexample :
    readiness_check ⟨.ok none, .ok (-2),
        count_available_senseboxes (.ok [⟨none⟩]) (fun _ => .ok 200)⟩
      = (.error (.keyError "_id"), true) := rfl

/-- C3 amended: `readiness_check` catches exactly the exception classes
`requests.RequestException` and `redis.RedisError`; whenever the cache
consultation, the TTL query and the availability sampling fail only
with those classes, `readiness_check` never raises, and any exception
the `try` body produces is converted to the error verdict carrying the
exception's message with HTTP 503.  Exceptions of other classes (such
as `KeyError` from a malformed endpoint record) propagate. -/
theorem c3_exception_handling (env : HealthEnv)
    (h1 : ∀ e, env.redisGet = .error e → caughtByReadiness e = true)
    (h2 : ∀ e, env.redisTtl = .error e → caughtByReadiness e = true)
    (h3 : ∀ e, env.sample = .error e → caughtByReadiness e = true) :
    ((readiness_check env).1).isOk = true ∧
    ∀ e b, readiness_body env = (.error e, b) →
      readiness_check env = (.ok (⟨"error", e.msg⟩, 503), b) := by
  have key : ∀ e b, readiness_body env = (.error e, b) →
      readiness_check env = (.ok (⟨"error", e.msg⟩, 503), b) := by
    intro e b hb
    obtain ⟨g, tl, sm⟩ := env
    have hsrc := readiness_body_error_src g tl sm e b hb
    have hc : caughtByReadiness e = true := by
      rcases hsrc with hs | hs | hs
      · exact h1 e hs
      · exact h2 e hs
      · exact h3 e hs
    unfold readiness_check
    rw [hb]
    dsimp only
    rw [hc]
    simp [excResp]
  refine ⟨?_, key⟩
  rcases hb : readiness_body env with ⟨fst, snd⟩
  cases fst with
  | ok r =>
    unfold readiness_check
    rw [hb]
    rfl
  | error e =>
    rw [key e snd hb]
    rfl

/-- C3 amended witness: a `RedisError` from the cache consultation is
converted to an error verdict with the exception's message and 503, and
`readiness_check` does not raise. -/
theorem c3_exception_handling_witness :
    ((readiness_check ⟨.error (.redisError "Error"), .ok 0,
        .ok (10, 0)⟩).1).isOk = true ∧
    readiness_check ⟨.error (.redisError "Error"), .ok 0, .ok (10, 0)⟩
      = (.ok (⟨"error", "Error"⟩, 503), false) := by
  have h := c3_exception_handling ⟨.error (.redisError "Error"), .ok 0, .ok (10, 0)⟩
    (fun e he => by injection he with h2; rw [← h2]; rfl)
    (fun e he => by exact absurd he (by simp))
    (fun e he => by exact absurd he (by simp))
  exact ⟨h.1, h.2 (.redisError "Error") false rfl⟩

/-- Helper: when every `"Temperatur"`-titled sensor of `l` carries a
numeric value (the list of those values being `vs`), the accumulation
loop succeeds and adds `vs.sum` to the running sum and `vs.length` to
the counter. -/
lemma foldlM_tempStep_of_ok (l : List Sensor) (vs : List ℚ) (acc : ℚ × ℕ)
    (h : l.filterMap (fun s => if s.title = "Temperatur" then
        some s.lastMeasurementValue else none) = vs.map Except.ok) :
    l.foldlM tempStep acc = .ok (acc.1 + vs.sum, acc.2 + vs.length) := by
  induction l generalizing vs acc with
  | nil =>
    simp only [List.filterMap_nil] at h
    have hvs : vs = [] := by
      cases vs with
      | nil => rfl
      | cons v vs2 => exact absurd h.symm (by simp)
    subst hvs
    simp only [List.foldlM_nil, List.sum_nil, List.length_nil, add_zero,
      Nat.add_zero]
    rfl
  | cons s l ih =>
    by_cases ht : s.title = "Temperatur"
    · simp only [List.filterMap_cons, if_pos ht] at h
      cases vs with
      | nil => exact absurd h (by simp)
      | cons v vs2 =>
        rw [List.map_cons, List.cons.injEq] at h
        obtain ⟨hval, hrest⟩ := h
        rw [List.foldlM_cons]
        have hstep : tempStep acc s = .ok (acc.1 + v, acc.2 + 1) := by
          unfold tempStep
          rw [if_pos ht, hval]
        rw [hstep]
        show l.foldlM tempStep (acc.1 + v, acc.2 + 1) = _
        rw [ih vs2 (acc.1 + v, acc.2 + 1) hrest]
        refine congrArg Except.ok ?_
        rw [Prod.mk.injEq]
        refine ⟨by dsimp only; rw [List.sum_cons]; ring,
          by dsimp only; rw [List.length_cons]; omega⟩
    · simp only [List.filterMap_cons, if_neg ht] at h
      rw [List.foldlM_cons]
      have hstep : tempStep acc s = .ok acc := by
        unfold tempStep
        rw [if_neg ht]
      rw [hstep]
      exact ih vs acc h

/-- C5: when at least one sensor titled `"Temperatur"` carries a
numeric value, `calculate_average_temperature` returns the sum of all
such sensors' values across all endpoints divided by their count,
truncated toward zero; sensors with any other title contribute
nothing. -/
theorem c5_truncated_mean (response : List Box) (vs : List ℚ)
    (hvs : temperaturValues response = vs.map Except.ok) (hne : vs ≠ []) :
    calculate_average_temperature response
      = .ok (ratTrunc (vs.sum / (vs.length : ℚ))) := by
  unfold calculate_average_temperature
  unfold temperaturValues at hvs
  rw [foldlM_tempStep_of_ok _ vs (0, 0) hvs]
  dsimp only
  rw [if_neg (by simpa using fun hlen => hne (List.length_eq_zero.mp hlen))]
  rw [zero_add, Nat.zero_add]

/-- C5 witness: values `[20, 30]` give 25, and `[20, 20, 20]` with
non-`"Temperatur"` sensors present gives 20. -/
theorem c5_truncated_mean_witness :
    calculate_average_temperature
        [⟨some [⟨"Temperatur", .ok 20⟩, ⟨"Temperatur", .ok 30⟩]⟩]
      = .ok 25 ∧
    calculate_average_temperature
        [⟨some [⟨"Temperatur", .ok 20⟩, ⟨"Humidity", .ok 50⟩]⟩,
          ⟨some [⟨"Temperatur", .ok 20⟩, ⟨"Temperatur", .ok 20⟩,
            ⟨"Luftdruck", .ok 1013⟩]⟩]
      = .ok 20 := by
  constructor
  · have h := c5_truncated_mean
      [⟨some [⟨"Temperatur", .ok 20⟩, ⟨"Temperatur", .ok 30⟩]⟩]
      [20, 30] rfl (by simp)
    rw [h]
    norm_num [ratTrunc]
  · have h := c5_truncated_mean
      [⟨some [⟨"Temperatur", .ok 20⟩, ⟨"Humidity", .ok 50⟩]⟩,
        ⟨some [⟨"Temperatur", .ok 20⟩, ⟨"Temperatur", .ok 20⟩,
          ⟨"Luftdruck", .ok 1013⟩]⟩]
      [20, 20, 20] rfl (by simp)
    rw [h]
    norm_num [ratTrunc]

/-- C6: `calculate_average_temperature` fails with
`HTTPException(404, "No temperature data found")` exactly when no
sensor titled `"Temperatur"` occurs — in particular on the empty
list. -/
theorem c6_no_data_found (response : List Box)
    (h : ∀ s ∈ response.flatMap Box.sensorList, s.title ≠ "Temperatur") :
    calculate_average_temperature response
      = .error (.httpException 404 "No temperature data found") := by
  unfold calculate_average_temperature
  have hnil : (response.flatMap Box.sensorList).filterMap
      (fun s => if s.title = "Temperatur" then
        some s.lastMeasurementValue else none) = ([] : List ℚ).map Except.ok := by
    rw [List.map_nil, List.filterMap_eq_nil_iff]
    intro s hs
    rw [if_neg (h s hs)]
  rw [foldlM_tempStep_of_ok _ [] (0, 0) hnil]
  rfl

/-- C6 witness: the empty endpoint list, and a list whose only sensors
have other titles, both fail with the 404 "No temperature data found"
error. -/
theorem c6_no_data_found_witness :
    calculate_average_temperature []
      = .error (.httpException 404 "No temperature data found") ∧
    calculate_average_temperature [⟨some [⟨"Humidity", .ok 50⟩]⟩, ⟨none⟩]
      = .error (.httpException 404 "No temperature data found") :=
  ⟨c6_no_data_found [] (by simp),
    c6_no_data_found [⟨some [⟨"Humidity", .ok 50⟩]⟩, ⟨none⟩] (by
      intro s hs
      fin_cases hs
      decide)⟩

/-- C10 (implicit): an endpoint lacking the `"sensors"` field is
treated as having no sensors: inserting such an endpoint anywhere in
the input changes nothing about the outcome of
`calculate_average_temperature`, and in particular never by itself
causes a failure. -/
theorem c10_missing_sensors_field (pre post : List Box) :
    calculate_average_temperature (pre ++ ⟨none⟩ :: post)
      = calculate_average_temperature (pre ++ post) := by
  unfold calculate_average_temperature
  have hflat : (pre ++ ⟨none⟩ :: post).flatMap Box.sensorList
      = (pre ++ post).flatMap Box.sensorList := by
    simp [List.flatMap_append, List.flatMap_cons, Box.sensorList]
  rw [hflat]

/-- Helper: when every endpoint record has an `"_id"` and every probe
failure is a `requests.RequestException`, the probing loop completes
and counts exactly the endpoints whose probe returned a non-200 status
or raised. -/
lemma foldlM_probeStep_count (probe : String → Except PyExc ℕ)
    (hp : ∀ i e, probe i = .error e → ∃ m, e = .requestException m)
    (boxes : List Sensebox) (hid : ∀ sb ∈ boxes, sb.boxId.isSome = true)
    (acc : ℕ) :
    boxes.foldlM (probeStep probe) acc
      = .ok (acc + (boxes.filter (probeFails probe)).length) := by
  induction boxes generalizing acc with
  | nil => simp only [List.foldlM_nil, List.filter_nil, List.length_nil,
      Nat.add_zero]; rfl
  | cons sb rest ih =>
    have hid0 : sb.boxId.isSome = true := hid sb (by simp)
    obtain ⟨i, hi⟩ := Option.isSome_iff_exists.mp hid0
    have hidr : ∀ b ∈ rest, b.boxId.isSome = true :=
      fun b hb => hid b (by simp [hb])
    rw [List.foldlM_cons]
    cases hpr : probe i with
    | ok code =>
      have hstep : probeStep probe acc sb
          = .ok (if code ≠ 200 then acc + 1 else acc) := by
        simp only [probeStep, hi, hpr]
        split_ifs <;> rfl
      have hfail : probeFails probe sb = decide (code ≠ 200) := by
        simp only [probeFails, hi, hpr]
      rw [hstep]
      by_cases hc : code = 200
      · show rest.foldlM (probeStep probe) _ = _
        rw [if_neg (by simpa using hc)]
        rw [ih hidr acc, List.filter_cons, hfail]
        rw [if_neg (by simpa using hc)]
      · show rest.foldlM (probeStep probe) _ = _
        rw [if_pos hc]
        rw [ih hidr (acc + 1), List.filter_cons, hfail]
        rw [if_pos (by simpa using hc), List.length_cons]
        refine congrArg Except.ok ?_
        omega
    | error e =>
      obtain ⟨m, hm⟩ := hp i e hpr
      subst hm
      have hstep : probeStep probe acc sb = .ok (acc + 1) := by
        simp only [probeStep, hi, hpr]
      have hfail : probeFails probe sb = true := by
        simp only [probeFails, hi, hpr]
      rw [hstep]
      show rest.foldlM (probeStep probe) (acc + 1) = _
      rw [ih hidr (acc + 1), List.filter_cons, hfail]
      rw [if_pos rfl, List.length_cons]
      refine congrArg Except.ok ?_
      omega

/-- Helper: under the same probe hypothesis, the probing loop either
completes or raises `KeyError("_id")` (from an endpoint record lacking
`"_id"`); it never raises a `requests.RequestException`. -/
lemma foldlM_probeStep_cases (probe : String → Except PyExc ℕ)
    (hp : ∀ i e, probe i = .error e → ∃ m, e = .requestException m)
    (boxes : List Sensebox) (acc : ℕ) :
    (∃ n, boxes.foldlM (probeStep probe) acc = .ok n) ∨
    boxes.foldlM (probeStep probe) acc = .error (.keyError "_id") := by
  induction boxes generalizing acc with
  | nil => exact Or.inl ⟨acc, rfl⟩
  | cons sb rest ih =>
    rw [List.foldlM_cons]
    cases hi : sb.boxId with
    | none =>
      right
      have hstep : probeStep probe acc sb = .error (.keyError "_id") := by
        unfold probeStep
        rw [hi]
      rw [hstep]
      rfl
    | some i =>
      cases hpr : probe i with
      | ok code =>
        have hstep : probeStep probe acc sb
            = .ok (if code ≠ 200 then acc + 1 else acc) := by
          simp only [probeStep, hi, hpr]
          split_ifs <;> rfl
        rw [hstep]
        by_cases hc : code = 200
        · rw [if_neg (by simpa using hc)]
          exact ih acc
        · rw [if_pos hc]
          exact ih (acc + 1)
      | error e =>
        obtain ⟨m, hm⟩ := hp i e hpr
        subst hm
        have hstep : probeStep probe acc sb = .ok (acc + 1) := by
          simp only [probeStep, hi, hpr]
        rw [hstep]
        exact ih (acc + 1)

/-- C7: availability sampling absorbs per-endpoint probe failures.
When the initial fetch succeeds with endpoints that all carry an
`"_id"`, `count_available_senseboxes` returns the total endpoint count
paired with the number of endpoints whose probe returned a non-200
status or raised a network error — no probe failure aborts the scan or
propagates.  Moreover the function raises a
`requests.RequestException` (`UpstreamUnavailable`) if and only if the
initial endpoint-list fetch raised it. -/
theorem c7_sampler_absorbs_probe_failures
    (fetched : Except PyExc (List Sensebox))
    (probe : String → Except PyExc ℕ)
    (hp : ∀ i e, probe i = .error e → ∃ m, e = .requestException m) :
    (∀ boxes, fetched = .ok boxes → (∀ sb ∈ boxes, sb.boxId.isSome = true) →
      count_available_senseboxes fetched probe
        = .ok (boxes.length, (boxes.filter (probeFails probe)).length)) ∧
    (∀ m, count_available_senseboxes fetched probe
        = .error (.requestException m) ↔
      fetched = .error (.requestException m)) := by
  constructor
  · intro boxes hf hid
    subst hf
    unfold count_available_senseboxes
    dsimp only
    rw [foldlM_probeStep_count probe hp boxes hid 0]
    rw [Nat.zero_add]
  · intro m
    constructor
    · intro h
      cases fetched with
      | error e =>
        unfold count_available_senseboxes at h
        dsimp only at h
        injection h with h2
        rw [h2]
      | ok boxes =>
        exfalso
        unfold count_available_senseboxes at h
        dsimp only at h
        rcases foldlM_probeStep_cases probe hp boxes 0 with ⟨n, hn⟩ | hn
        · rw [hn] at h
          exact absurd h (by simp)
        · rw [hn] at h
          injection h with h2
          exact absurd h2 (by simp)
    · intro hf
      subst hf
      rfl

/-- C7 witness: a fetch of three endpoints where one probe returns 200,
one returns 503 and one raises a network error yields total 3 with 2
inaccessible, and no `RequestException` is raised since the fetch
succeeded. -/
theorem c7_sampler_absorbs_probe_failures_witness :
    count_available_senseboxes
        (.ok [⟨some "a"⟩, ⟨some "b"⟩, ⟨some "c"⟩])
        (fun i => if i = "a" then .ok 200 else if i = "b" then .ok 503
          else .error (.requestException "timeout"))
      = .ok (3, 2) := by
  have hp : ∀ i e, (fun i => if i = "a" then (.ok 200 : Except PyExc ℕ)
      else if i = "b" then .ok 503 else .error (.requestException "timeout")) i
        = .error e → ∃ m, e = .requestException m := by
    intro i e h
    dsimp only at h
    split_ifs at h with h1 h2
    exact ⟨"timeout", by injection h with h3; exact h3.symm⟩
  have h := (c7_sampler_absorbs_probe_failures
    (.ok [⟨some "a"⟩, ⟨some "b"⟩, ⟨some "c"⟩]) _ hp).1
    [⟨some "a"⟩, ⟨some "b"⟩, ⟨some "c"⟩] rfl (by decide)
  rw [h]
  rfl

/-- Helper: an exception raised by the accumulation loop of
`calculate_average_temperature` is exactly the conversion failure of
some `"Temperatur"`-titled sensor of the input, propagated unchanged
(`KeyError` stays `KeyError`, `ValueError` stays `ValueError`). -/
lemma foldlM_tempStep_error_src (l : List Sensor) (acc : ℚ × ℕ) (e : PyExc)
    (h : l.foldlM tempStep acc = .error e) :
    ∃ s ∈ l, s.title = "Temperatur" ∧ s.lastMeasurementValue = .error e := by
  induction l generalizing acc with
  | nil =>
    rw [List.foldlM_nil] at h
    exact absurd h (fun hc => by cases hc)
  | cons s l ih =>
    rw [List.foldlM_cons] at h
    by_cases ht : s.title = "Temperatur"
    · cases hv : s.lastMeasurementValue with
      | ok v =>
        have hstep : tempStep acc s = .ok (acc.1 + v, acc.2 + 1) := by
          unfold tempStep
          rw [if_pos ht, hv]
        rw [hstep] at h
        obtain ⟨s2, hmem, hs2⟩ := ih _ h
        exact ⟨s2, List.mem_cons_of_mem s hmem, hs2⟩
      | error u =>
        have hstep : tempStep acc s = .error u := by
          unfold tempStep
          rw [if_pos ht, hv]
        rw [hstep] at h
        have h2 : (Except.error u : Except PyExc (ℚ × ℕ)) = .error e := h
        injection h2 with h3
        exact ⟨s, List.mem_cons_self s l, ht, by rw [hv, h3]⟩
    · have hstep : tempStep acc s = .ok acc := by
        unfold tempStep
        rw [if_neg ht]
      rw [hstep] at h
      obtain ⟨s2, hmem, hs2⟩ := ih acc h
      exact ⟨s2, List.mem_cons_of_mem s hmem, hs2⟩

/-- Helper: `calculate_average_temperature` raises either
`HTTPException(404, "No temperature data found")` (empty filtered
count) or the conversion failure of some `"Temperatur"` sensor of its
input, propagated unchanged. -/
lemma calculate_average_temperature_error_src (response : List Box)
    (e : PyExc) (h : calculate_average_temperature response = .error e) :
    e = .httpException 404 "No temperature data found" ∨
    ∃ s ∈ response.flatMap Box.sensorList,
      s.title = "Temperatur" ∧ s.lastMeasurementValue = .error e := by
  unfold calculate_average_temperature at h
  cases hf : (response.flatMap Box.sensorList).foldlM tempStep (0, 0) with
  | error e2 =>
    rw [hf] at h
    dsimp only at h
    injection h with h2
    subst h2
    exact Or.inr (foldlM_tempStep_error_src _ _ _ hf)
  | ok p =>
    obtain ⟨m, c⟩ := p
    rw [hf] at h
    dsimp only at h
    split_ifs at h
    injection h with h2
    exact Or.inl h2.symm

/-- Helper: under realistic MinIO failure kinds,
`store_temperature_in_minio` either succeeds, raises an `S3Error`
(from the `bucket_exists` round trip), or — exactly when the bucket is
missing and its creation fails — raises
`HTTPException(500, "Failed to create MinIO bucket")`. -/
lemma store_temperature_in_minio_cases (m : MinioEnv) (hk : minioKindsOk m) :
    store_temperature_in_minio m = .ok () ∨
    (∃ s, store_temperature_in_minio m = .error (.s3Error s)) ∨
    (m.bucket_exists = .ok false ∧ (∃ s, m.make_bucket = .error (.s3Error s)) ∧
      store_temperature_in_minio m
        = .error (.httpException 500 "Failed to create MinIO bucket")) := by
  obtain ⟨hbe, hmb, hpo⟩ := hk
  cases hb : m.bucket_exists with
  | error e =>
    obtain ⟨s, hs⟩ := hbe e hb
    subst hs
    refine Or.inr (Or.inl ⟨s, ?_⟩)
    unfold store_temperature_in_minio
    rw [hb]
  | ok b =>
    cases b with
    | true =>
      cases hp2 : m.put_object with
      | ok u =>
        left
        unfold store_temperature_in_minio
        rw [hb]
        dsimp only
        rw [hp2]
        rfl
      | error e =>
        obtain ⟨s, hs⟩ := hpo e hp2
        subst hs
        left
        unfold store_temperature_in_minio
        rw [hb]
        dsimp only
        rw [hp2]
        rfl
    | false =>
      cases hm : m.make_bucket with
      | ok u =>
        cases hp2 : m.put_object with
        | ok u2 =>
          left
          unfold store_temperature_in_minio
          rw [hb]
          dsimp only
          rw [hm]
          dsimp only
          rw [hp2]
          rfl
        | error e =>
          obtain ⟨s, hs⟩ := hpo e hp2
          subst hs
          left
          unfold store_temperature_in_minio
          rw [hb]
          dsimp only
          rw [hm]
          dsimp only
          rw [hp2]
          rfl
      | error e =>
        obtain ⟨s, hs⟩ := hmb e hm
        subst hs
        refine Or.inr (Or.inr ⟨rfl, ⟨s, rfl⟩, ?_⟩)
        unfold store_temperature_in_minio
        rw [hb]
        dsimp only
        rw [hm]
        rfl

/-- Helper: under realistic failure kinds, with fetched sensor values
whose conversion failures are `ValueError`/`TypeError` (not `KeyError`)
and outside the fatal hit-path bucket-creation state, one snapshot-loop
iteration completes without an escaping exception and leaves the cache
unchanged. -/
lemma loop_iteration_ok (env : LoopEnv) (st : RedisState)
    (hk : envKindsOk env) (hv : fetchedValuesOk env)
    (hs : safeIteration env st) :
    loop_iteration env st = (.ok (), st) := by
  obtain ⟨hfetch, hminio⟩ := hk
  cases hr : env.redisFailure with
  | some m =>
    unfold loop_iteration
    rw [hr]
  | none =>
    cases hc : st.temperature with
    | some v =>
      rcases store_temperature_in_minio_cases env.minio hminio with
        hst | ⟨s, hst⟩ | ⟨hb, ⟨s, hm⟩, hst⟩
      · unfold loop_iteration
        rw [hr]
        dsimp only
        rw [hc]
        dsimp only
        rw [hst]
      · unfold loop_iteration
        rw [hr]
        dsimp only
        rw [hc]
        dsimp only
        rw [hst]
      · exact absurd ⟨hr, by rw [hc]; rfl, hb, s, hm⟩ hs
    | none =>
      cases hf : env.fetched with
      | error e =>
        obtain ⟨s, hes⟩ := hfetch e hf
        subst hes
        unfold loop_iteration
        rw [hr]
        dsimp only
        rw [hc]
        dsimp only
        rw [hf]
      | ok boxes =>
        cases hca : calculate_average_temperature boxes with
        | error e =>
          have hkind : e = .httpException 404 "No temperature data found" ∨
              ∃ m, e = .valueError m := by
            rcases calculate_average_temperature_error_src boxes e hca with
              he | ⟨s, hsmem, hstitle, hsval⟩
            · exact Or.inl he
            · rcases hv boxes hf s hsmem hstitle with ⟨q, hq⟩ | ⟨m, hm2⟩
              · rw [hq] at hsval
                exact absurd hsval (fun hcon => by injection hcon)
              · have h3 : Except.error (PyExc.valueError m)
                    = (Except.error e : Except PyExc ℚ) := hm2.symm.trans hsval
                injection h3 with h4
                exact Or.inr ⟨m, h4.symm⟩
          rcases hkind with he | ⟨m2, he⟩ <;> subst he <;>
            · unfold loop_iteration
              rw [hr]
              dsimp only
              rw [hc]
              dsimp only
              rw [hf]
              dsimp only
              rw [hca]
        | ok data =>
          rcases store_temperature_in_minio_cases env.minio hminio with
            hst | ⟨s, hst⟩ | ⟨hb, ⟨s, hm⟩, hst⟩ <;>
            · unfold loop_iteration
              rw [hr]
              dsimp only
              rw [hc]
              dsimp only
              rw [hf]
              dsimp only
              rw [hca]
              dsimp only
              rw [hst]

/-- C8 counterexample: two concrete iteration states whose failure
escapes the loop instead of being caught at the iteration boundary.
First, with a cached value, a missing bucket, and a bucket creation
failing with `S3Error`, the iteration raises
`HTTPException(500, "Failed to create MinIO bucket")`, which the
iteration-boundary `except (requests.RequestException, redis.RedisError,
S3Error)` clause does not catch; the one-iteration run reports the
escaped exception with zero completed iterations.  Second, with an
empty cache and fetched data whose only `"Temperatur"` sensor lacks the
`"lastMeasurement"` key, the aggregation raises `KeyError`, which none
of `except HTTPException`, `except (ValueError, TypeError)` or the
iteration-boundary clause catches.  Both refute the claim that every
iteration failure is caught and the loop proceeds. -/
theorem c8_counterexample :
    loop_iteration
        ⟨none, .ok [], ⟨.ok false, .error (.s3Error "bucket create failed"), .ok ()⟩⟩
        ⟨some 20⟩
      = (.error (.httpException 500 "Failed to create MinIO bucket"),
          ⟨some 20⟩) ∧
    loop_run
        [⟨none, .ok [], ⟨.ok false, .error (.s3Error "bucket create failed"), .ok ()⟩⟩]
        ⟨some 20⟩
      = .error (.httpException 500 "Failed to create MinIO bucket", 0) ∧
    loop_iteration
        ⟨none,
          .ok [⟨some [⟨"Temperatur", .error (.keyError "lastMeasurement")⟩]⟩],
          ⟨.ok true, .ok (), .ok ()⟩⟩
        ⟨none⟩
      = (.error (.keyError "lastMeasurement"), ⟨none⟩) :=
  ⟨rfl, rfl, rfl⟩

/-- C8 amended: every iteration failure whose kind the code can
encounter — upstream `RequestException`, cache `RedisError`, durable
store `S3Error` at the iteration boundary, plus `HTTPException` and the
`ValueError`/`TypeError` of a non-numeric sensor value on the
cache-miss recompute path — is caught inside the iteration, and the
loop runs every subsequent iteration, except in the two states of the
counterexample: a cache hit while the bucket is missing and its
creation fails (the `HTTPException(500)` escapes), and a cache miss
whose fetched `"Temperatur"` data raises `KeyError` from a missing
`"lastMeasurement"`/`"value"` key (caught by no handler).  Outside
those states, arbitrarily many iterations all complete. -/
theorem c8_loop_survives_failures (envs : List LoopEnv) (st : RedisState)
    (h : ∀ env ∈ envs,
      envKindsOk env ∧ fetchedValuesOk env ∧ safeIteration env st) :
    loop_run envs st = .ok st := by
  induction envs with
  | nil => rfl
  | cons e rest ih =>
    have he := h e (by simp)
    unfold loop_run
    rw [loop_iteration_ok e st he.1 he.2.1 he.2.2]
    dsimp only
    rw [ih (fun env hm => h env (by simp [hm]))]

/-- C8 amended witness: a run of three iterations — the first failing
upstream with a `RequestException`, the second failing on the cache
with a `RedisError`, the third recomputing from data whose only
`"Temperatur"` sensor fails its `float()` conversion with `ValueError`
— completes all three iterations with no escaping exception. -/
theorem c8_loop_survives_failures_witness :
    loop_run
        [⟨none, .error (.requestException "boom"), ⟨.ok true, .ok (), .ok ()⟩⟩,
          ⟨some "redis down", .ok [], ⟨.ok true, .ok (), .ok ()⟩⟩,
          ⟨none,
            .ok [⟨some [⟨"Temperatur",
              .error (.valueError "could not convert string to float")⟩]⟩],
            ⟨.ok true, .ok (), .ok ()⟩⟩]
        ⟨none⟩
      = .ok ⟨none⟩ := by
  apply c8_loop_survives_failures
  intro env hm
  simp only [List.mem_cons, List.not_mem_nil, or_false] at hm
  rcases hm with hm | hm | hm <;> subst hm
  · refine ⟨⟨fun e he => ⟨"boom", by injection he with h2; exact h2.symm⟩,
      fun e he => absurd he (fun hc => by injection hc),
      fun e he => absurd he (fun hc => by injection hc),
      fun e he => absurd he (fun hc => by injection hc)⟩,
      fun boxes hb => absurd hb (fun hc => by injection hc), ?_⟩
    rintro ⟨-, habs, -, -⟩
    exact absurd habs (by decide)
  · refine ⟨⟨fun e he => absurd he (fun hc => by injection hc),
      fun e he => absurd he (fun hc => by injection hc),
      fun e he => absurd he (fun hc => by injection hc),
      fun e he => absurd he (fun hc => by injection hc)⟩, ?_, ?_⟩
    · intro boxes hb
      injection hb with h2
      subst h2
      intro s hsmem
      exact absurd hsmem (by simp)
    · rintro ⟨habs, -, -, -⟩
      exact absurd habs (fun hc => by injection hc)
  · refine ⟨⟨fun e he => absurd he (fun hc => by injection hc),
      fun e he => absurd he (fun hc => by injection hc),
      fun e he => absurd he (fun hc => by injection hc),
      fun e he => absurd he (fun hc => by injection hc)⟩, ?_, ?_⟩
    · intro boxes hb
      injection hb with h2
      subst h2
      intro s hsmem hstitle
      have hs2 : s = ⟨"Temperatur",
          .error (.valueError "could not convert string to float")⟩ := by
        simpa [Box.sensorList] using hsmem
      subst hs2
      exact Or.inr ⟨"could not convert string to float", rfl⟩
    · rintro ⟨-, habs, -, -⟩
      exact absurd habs (by decide)

/-- C9: the snapshot loop is read-only with respect to the cache: one
iteration — on every path, including the cache-miss path that
recomputes the aggregate — returns the cache state unchanged, and any
completed run of the loop leaves the cache exactly as it started. -/
theorem c9_loop_cache_readonly :
    (∀ (env : LoopEnv) (st : RedisState), (loop_iteration env st).2 = st) ∧
    (∀ (envs : List LoopEnv) (st : RedisState),
      loop_run envs st = .ok st ∨ ∃ p, loop_run envs st = .error p) := by
  constructor
  · intro env st
    rfl
  · intro envs st
    induction envs with
    | nil => exact Or.inl rfl
    | cons e rest ih =>
      rcases ho : loop_iteration e st with ⟨ex | u, st2⟩
      · refine Or.inr ⟨(ex, 0), ?_⟩
        unfold loop_run
        rw [ho]
      · have hst2 : st2 = st := by
          have h2 := congrArg Prod.snd ho
          exact h2.symm
        subst hst2
        rcases ih with hok | ⟨p, hp⟩
        · left
          unfold loop_run
          rw [ho]
          dsimp only
          rw [hok]
        · obtain ⟨ex2, n⟩ := p
          refine Or.inr ⟨(ex2, n + 1), ?_⟩
          unfold loop_run
          rw [ho]
          dsimp only
          rw [hp]

end HiveBox
